import Mathlib

/-!
Verification model of the `lib.log` logging facade (erichiller/log).

The development shallowly embeds the context-lifecycle state machine
(`src/context.py` - `LogContext`, `GlobalLogContext`), the emission pipeline
(`src/logger.py` - `Log.log`, `Log.logContextStatusOpening`,
`Log.logContextStatusClosing`, `Log.removeHandler`) and the render engine
(`src/formatter.py` - `DynamicLogFormatter.format`).

Modelling conventions:
- Python ints are `Int` (log levels) or `Nat` (counters, identities).
- Fallible code paths (a Python statement that raises) return `Option`.
- The global mutable state (`GlobalLogContext` together with the single
  logger's `level`/`title` attributes touched by the context machinery) is an
  explicit `LogState` threaded through each operation.
- The embedded logger models a `Log` instance whose `level` is explicitly
  set, so `isEnabledFor(lvl)` is `lvl >= level` (`logging.Logger.log` drops a
  record below the logger's effective level).
- `LogContext` objects are interned by `obj_idx` (the `Multiton` base keyed
  by `getIndex`), so the identity token `obj_idx : Nat` identifies a scope
  and the per-scope mutable `context_count` lives in a map `Nat -> Nat`.
-/

namespace ErLog

/-- `LogContextStatus` from `src/private.py`: OPENING = 1, CURRENT = 2,
CLOSING = 3, NOCONTEXT = False. -/
inductive LogContextStatus where
  | OPENING
  | CURRENT
  | CLOSING
  | NOCONTEXT
deriving DecidableEq, Repr

/-- A Python `Union[str, bool]` value, used for the `heading` attribute of a
`LogContext` (`heading : Union[str, bool]`, default `True`). -/
inductive HeadingVal where
  | str (s : String)
  | bool (b : Bool)
deriving DecidableEq, Repr

/-- Immutable data of one `LogContext` object (`src/context.py`).
`obj_idx` is the `Multiton` identity token.  `default_title` is the result
of `getDefaultTitle()` (a string derived from the calling frame, or `False`
when the calling function could not be determined); stack introspection is
not embeddable, so the value is carried as data captured at construction.
The mutable `context_count` lives in `LogState.counts`, keyed by
`obj_idx`. -/
structure LogContext where
  obj_idx : Nat
  title : Option String
  heading : HeadingVal
  level : Option Int
  default_title : Option String
deriving DecidableEq, Repr

/-- `LogContext.getHeading` (`src/context.py` lines 149-156): an explicit
string heading wins, else a string title, else the default title
(`none` models the Python `False` returns). -/
def getHeading (c : LogContext) : Option String :=
  match c.heading with
  | .str s => some s
  | .bool _ =>
    match c.title with
    | some t => some t
    | none => c.default_title

/-- The `heading is not False` test used by `Log.logContextStatusOpening`
and `Log.logContextStatusClosing`: `True` and every string (including `""`)
pass, only the bool `False` fails. -/
def headingEnabled (c : LogContext) : Bool :=
  match c.heading with
  | .bool false => false
  | _ => true

/-- A Python value placed in a marker record's `args['heading']` slot: the
OPENING marker stores the f-string of `getHeading()` (so the bool `False`
becomes the string `"False"`), the CLOSING marker stores `getHeading()`
unconverted (so it can be the bool `False`). -/
inductive HeadingArg where
  | str (s : String)
  | fls
deriving DecidableEq, Repr

/-- Python `f"{x}"` applied to a `Union[str, bool-False]` value. -/
def fstrOpt : Option String → String
  | some s => s
  | none => "False"

/-- `args['heading']` of the OPENING marker record emitted by
`Log.logContextStatusOpening` (`src/logger.py` line 207). -/
def openingHeadingArg (c : LogContext) : HeadingArg :=
  .str (fstrOpt (getHeading c))

/-- `args['heading']` of the CLOSING marker record emitted by
`Log.logContextStatusClosing` (`src/logger.py` line 223). -/
def closingHeadingArg (c : LogContext) : HeadingArg :=
  match getHeading c with
  | some s => .str s
  | none => .fls

/-- A record that made it past the logger-level filter inside
`logging.Logger.log`.  `marker` records are the context-transition records
synthesized with `msg = None` and a `context` arg; `message` records are the
user records built by `Log.log` (payload, level, merged title hint). -/
inductive LogRecord where
  | marker (tag : LogContextStatus) (heading : HeadingArg) (level : Int)
  | message (payload : String) (level : Int) (title : Option String)
deriving DecidableEq, Repr

/-- The shared mutable state: the four `GlobalLogContext` slots
(`src/context.py` lines 241-244), the per-scope `context_count` map, and
the logger attributes mutated by the context machinery (`Log.level`,
`Log.title`, and the `old_level` saved per scope on entry). -/
structure LogState where
  status : LogContextStatus
  context_current : Option LogContext
  context_pending : Option LogContext
  context_prior : Option LogContext
  counts : Nat → Nat
  loggerLevel : Int
  loggerTitle : Option String
  savedLevel : Nat → Int

/-- Pointwise function update for the count / saved-level maps. -/
def updateFn (f : Nat → α) (k : Nat) (v : α) : Nat → α :=
  fun n => if n = k then v else f n

/-- `logging.INFO`, which is also `LogContext.heading_level`
(`src/context.py` line 19). -/
def INFO_LEVEL : Int := 20

/-- `LogContext.__enter__` (`src/context.py` lines 82-110): apply the level
override (saving the old logger level), publish the scope title on the
logger, then set `context_pending` when the entering scope differs from
`context_current` by identity (forcing status `CLOSING` when some other
scope is current), and cancel a pending `CLOSING` back to `CURRENT` when
re-entering the scope that is already current.  `__enter__` emits no
records. -/
def enterOp (c : LogContext) (st : LogState) : LogState :=
  let st :=
    match c.level with
    | some l =>
      { st with savedLevel := updateFn st.savedLevel c.obj_idx st.loggerLevel
                loggerLevel := l }
    | none => st
  let st := { st with loggerTitle := c.title }
  let st :=
    if (match st.context_current with
        | some cur => cur.obj_idx != c.obj_idx
        | none => true) then
      let st := { st with context_pending := some c }
      match st.context_current with
      | some _ => { st with status := .CLOSING }
      | none => st
    else st
  if (match st.context_current with
      | some cur => cur.obj_idx == c.obj_idx
      | none => false) && st.status == .CLOSING then
    { st with status := .CURRENT }
  else st

/-- `LogContext.__exit__` (`src/context.py` lines 113-140): restore the
saved logger level, clear the published title, and set the global status to
`CLOSING` only when this scope's `context_count` is positive; finally reset
the count to zero.  Note that `context_pending` is left untouched.
`__exit__` emits no records. -/
def exitOp (c : LogContext) (st : LogState) : LogState :=
  let st :=
    match c.level with
    | some _ => { st with loggerLevel := st.savedLevel c.obj_idx }
    | none => st
  let st :=
    match c.title with
    | some _ => { st with loggerTitle := none }
    | none => st
  let st := if st.counts c.obj_idx > 0 then { st with status := .CLOSING } else st
  { st with counts := updateFn st.counts c.obj_idx 0 }

/-- `context_exit_level` in `Log.logContextStatusClosing` (`src/logger.py`
line 219): the closing scope's own level override when it is an int, else
`logging.INFO`. -/
def closingExitLevel (c : LogContext) : Int :=
  match c.level with
  | some l => l
  | none => INFO_LEVEL

/-- `Log.logContextStatusClosing` (`src/logger.py` lines 212-228): when the
current scope's heading is not `False`, temporarily set the logger level to
`closingExitLevel` and log a `msg = None` record tagged `CLOSING` at level
`heading_level` (INFO); that marker therefore survives the level filter iff
`INFO >= closingExitLevel`.  Then reset status to `NOCONTEXT` and shift
`context_current` into `context_prior`. -/
def logContextStatusClosing (st : LogState) : LogState × List LogRecord :=
  let recs :=
    match st.context_current with
    | some cur =>
      if headingEnabled cur then
        if closingExitLevel cur ≤ INFO_LEVEL then
          [LogRecord.marker .CLOSING (closingHeadingArg cur) INFO_LEVEL]
        else []
      else []
    | none => []
  ({ st with status := .NOCONTEXT
             context_prior := st.context_current
             context_current := none }, recs)

/-- `Log.logContextStatusOpening` (`src/logger.py` lines 202-210): when the
(just-promoted) current scope's heading is not `False`, log a `msg = None`
record tagged `OPENING` at `heading_level` (INFO), filtered against the
logger's current level; then set status `CURRENT` and increment the scope's
`context_count`. -/
def logContextStatusOpening (st : LogState) : LogState × List LogRecord :=
  match st.context_current with
  | some cur =>
    let recs :=
      if headingEnabled cur then
        if INFO_LEVEL ≥ st.loggerLevel then
          [LogRecord.marker .OPENING (openingHeadingArg cur) INFO_LEVEL]
        else []
      else []
    ({ st with status := .CURRENT
               counts := updateFn st.counts cur.obj_idx (st.counts cur.obj_idx + 1) },
     recs)
  | none => (st, [])

/-- First step of `Log.log` (`src/logger.py` lines 120-121): while the
status is `CURRENT`, each log call increments the current scope's
`context_count`. -/
def countStep (st : LogState) : LogState :=
  if st.status = .CURRENT then
    match st.context_current with
    | some cur =>
      { st with counts := updateFn st.counts cur.obj_idx (st.counts cur.obj_idx + 1) }
    | none => st
  else st

/-- The `context_pending` consumption in `Log.log` (lines 128-130):
`setContextStatus(OPENING, pending)` installs the pending scope as current
and runs `logContextStatusOpening`; then the pending slot is cleared. -/
def promoteStep (st : LogState) : LogState × List LogRecord :=
  match st.context_pending with
  | some p =>
    logContextStatusOpening
      { st with context_current := some p, context_pending := none }
  | none => (st, [])

/-- Merge of the logger-published title into the call's title hint
(`src/logger.py` lines 133-137); `if self.title:` is a truthiness test, so
an empty published title is ignored. -/
def mergedTitle (loggerTitle : Option String) (titleArg : Option String) : Option String :=
  match loggerTitle with
  | some t =>
    if t = "" then titleArg
    else
      match titleArg with
      | some ta => some (t ++ ": " ++ ta)
      | none => some t
  | none => titleArg

/-- The user record forwarded by `Log.log` line 150 through
`logging.Logger.log`, which drops it below the logger's level. -/
def realRecs (lv : Int) (payload : String) (titleArg : Option String)
    (st : LogState) : List LogRecord :=
  if lv ≥ st.loggerLevel then
    [LogRecord.message payload lv (mergedTitle st.loggerTitle titleArg)]
  else []

/-- The `if GlobalLogContext.status == LogContextStatus.CLOSING` branch of
`Log.log` (lines 122-126). -/
def closePhase (st : LogState) : LogState × List LogRecord :=
  if st.status = .CLOSING then logContextStatusClosing st else (st, [])

/-- `Log.log` (`src/logger.py` lines 103-158), context-handling branch:
count increment while `CURRENT`; synthesize the CLOSING marker when status
is `CLOSING`; promote a pending scope (emitting its OPENING marker); then
emit the user record with the merged title.  (The defensive level/msg swap
normalization concerns dynamic typing only; caller-location capture is
carried on the record and does not affect these outputs.) -/
def logOp (lv : Int) (payload : String) (titleArg : Option String)
    (st : LogState) : LogState × List LogRecord :=
  let clPair := closePhase (countStep st)
  let opPair := promoteStep clPair.1
  (opPair.1, clPair.2 ++ opPair.2 ++ realRecs lv payload titleArg opPair.1)

/-- One call arriving at the facade: scope entry, scope exit, or a log
call. -/
inductive LogEvent where
  | enter (c : LogContext)
  | exitScope (c : LogContext)
  | log (lv : Int) (payload : String) (titleArg : Option String)
deriving Repr

/-- Single-step semantics of one facade call. -/
def stepOp (st : LogState) : LogEvent → LogState × List LogRecord
  | .enter c => (enterOp c st, [])
  | .exitScope c => (exitOp c st, [])
  | .log lv p t => logOp lv p t st

/-- Run a single-threaded sequence of facade calls, accumulating the emitted
records in order. -/
def runOps (st : LogState) : List LogEvent → LogState × List LogRecord
  | [] => (st, [])
  | e :: es =>
    let r := stepOp st e
    let rest := runOps r.1 es
    (rest.1, r.2 ++ rest.2)

/-- Initial state (`GlobalLogContext` class attributes, `src/context.py`
lines 241-244) for a logger whose level is explicitly `l0`. -/
def initState (l0 : Int) : LogState :=
  { status := .NOCONTEXT
    context_current := none
    context_pending := none
    context_prior := none
    counts := fun _ => 0
    loggerLevel := l0
    loggerTitle := none
    savedLevel := fun _ => 0 }

/-- Recognizer for OPENING marker records. -/
def isOpeningMarker : LogRecord → Bool
  | .marker .OPENING _ _ => true
  | _ => false

/-- Recognizer for CLOSING marker records. -/
def isClosingMarker : LogRecord → Bool
  | .marker .CLOSING _ _ => true
  | _ => false

/-- Number of OPENING marker records in an output sequence. -/
def openingCount (rs : List LogRecord) : Nat :=
  (rs.filter isOpeningMarker).length

/-- Number of CLOSING marker records in an output sequence. -/
def closingCount (rs : List LogRecord) : Nat :=
  (rs.filter isClosingMarker).length

/-! ### Python string primitives used by `DynamicLogFormatter` -/

/-- `n` copies of a character as a string. -/
def replicateStr (n : Nat) (c : Char) : String :=
  String.mk (List.replicate n c)

/-- Python `str.ljust(w, c)`. -/
def pyLjust (s : String) (w : Nat) (c : Char) : String :=
  s ++ replicateStr (w - s.length) c

/-- Python `str.rjust(w, c)`, also the behaviour of the `{v:c>w}` format
spec. -/
def pyRjust (s : String) (w : Nat) (c : Char) : String :=
  replicateStr (w - s.length) c ++ s

/-- Python `str.center(w, c)` (CPython puts the extra fill character per
`left = marg // 2 + (marg & w & 1)`). -/
def pyCenter (s : String) (w : Nat) (c : Char) : String :=
  if w ≤ s.length then s
  else
    let marg := w - s.length
    let left := marg / 2 + (marg &&& w &&& 1)
    replicateStr left c ++ s ++ replicateStr (marg - left) c

/-- Does the second list start with the first? -/
def listStartsWith : List Char → List Char → Bool
  | [], _ => true
  | _ :: _, [] => false
  | p :: ps, x :: xs => p == x && listStartsWith ps xs

/-- Fuel-indexed worker for `pyReplace`; every step consumes at least one
character, so `l.length` fuel suffices. -/
def pyReplaceAux (pat rep : List Char) : Nat → List Char → List Char
  | 0, l => l
  | _ + 1, [] => []
  | n + 1, x :: xs =>
    if !pat.isEmpty && listStartsWith pat (x :: xs) then
      rep ++ pyReplaceAux pat rep n (List.drop pat.length (x :: xs))
    else
      x :: pyReplaceAux pat rep n xs

/-- Python `str.replace(pat, rep)`: leftmost non-overlapping occurrences. -/
def pyReplace (s pat rep : String) : String :=
  String.mk (pyReplaceAux pat.data rep.data s.data.length s.data)

/-- Python `str.rstrip(cs)`: strip trailing characters drawn from the set
`cs`. -/
def pyRstrip (s : String) (cs : String) : String :=
  String.mk ((s.data.reverse.dropWhile (fun c => cs.data.contains c)).reverse)

/-- Remove the first occurrence of a character. -/
def dropFirstOcc (c : Char) : List Char → List Char
  | [] => []
  | x :: xs => if x == c then xs else x :: dropFirstOcc c xs

/-- Python `"".join(s.rsplit(":", 1))`: drop the last colon. -/
def removeLastColonStr (s : String) : String :=
  String.mk ((dropFirstOcc ':' s.data.reverse).reverse)

/-! ### `DynamicLogFormatter` (`src/formatter.py`) -/

/-- ANSI reset. -/
def ANSI_CLEAR : String := "\u001B[0m"

/-- ANSI clear-to-end-of-line. -/
def ANSI_CLEOL : String := "\u001B[K"

/-- Colour codes of `DynamicLogFormatter` (class attributes). -/
def ANSI_BLACK : String := "\u001B[30m"

def ANSI_RED : String := "\u001B[31m"

def ANSI_GREEN : String := "\u001B[32m"

def ANSI_YELLOW : String := "\u001B[33m"

def ANSI_MAGENTA : String := "\u001B[35m"

def ANSI_CYAN : String := "\u001B[36m"

def ANSI_WHITE : String := "\u001B[37m"

def ANSI_BG_BLACK : String := "\u001B[40m"

def ANSI_BG_RED : String := "\u001B[41m"

def ANSI_BG_YELLOW : String := "\u001B[43m"

def ANSI_BG_WHITE : String := "\u001B[47m"

def COLOR_LOCATION : String := ANSI_BLACK ++ ANSI_BG_WHITE

def COLOR_TRACE : String := ANSI_WHITE

def COLOR_DEBUG : String := ANSI_MAGENTA

def COLOR_NOTICE : String := ANSI_BLACK ++ ANSI_BG_YELLOW

def COLOR_WARNING : String := ANSI_RED

def COLOR_CRITICAL : String := ANSI_RED ++ ANSI_BG_WHITE

def COLOR_HIGHLIGHT_CRITICAL : String := ANSI_WHITE ++ ANSI_BG_RED

def COLOR_LOCAL_FRAME : String := ANSI_BG_YELLOW ++ ANSI_BLACK

def COLOR_EXTERNAL_FRAME : String := ANSI_BG_BLACK ++ ANSI_WHITE

def COLOR_FINAL_FRAME : String := ANSI_WHITE ++ ANSI_BG_RED

def COLOR_CONTEXT_MARKER : String := ANSI_GREEN

def COLOR_EMPHASIS : String := ANSI_BG_RED

def COLOR_DEFAULT : String := ANSI_CYAN

/-- `logging.getLevelName` with the extra levels registered in
`src/level.py` (TRACE = 5, NOTICE = 25). -/
def getLevelName (n : Int) : String :=
  if n = 50 then "CRITICAL"
  else if n = 40 then "ERROR"
  else if n = 30 then "WARNING"
  else if n = 25 then "NOTICE"
  else if n = 20 then "INFO"
  else if n = 10 then "DEBUG"
  else if n = 5 then "TRACE"
  else if n = 0 then "NOTSET"
  else "Level " ++ toString n

/-- One `traceback.FrameSummary`: filename, line number and function
name. -/
structure TraceFrame where
  filename : String
  lineno : Int
  name : String
deriving DecidableEq, Repr

/-- An attached `record.exc_info` tuple: `repr` of the exception type,
`str` of the value, and the extracted traceback frames (innermost last). -/
structure ExcInfo where
  etypeRepr : String
  evalueStr : String
  tb : List TraceFrame
deriving DecidableEq, Repr

/-- The attributes of a `logging.LogRecord` consulted by
`DynamicLogFormatter.format`, with payloads restricted to `None` or a
string.  `argsHeading`, `contextArg`, `titleArg`, `relatime`, `location`,
`table`, `emphasis` and `stack_trace` model the `record.args` dict entries;
`stack_trace = none` models the `False` default taken when the entry is not
a list. -/
structure FRecord where
  msg : Option String
  levelno : Int
  argsHeading : HeadingVal
  contextArg : Option LogContextStatus
  titleArg : Option String
  relatime : Bool
  location : Bool
  table : Bool
  emphasis : Bool
  stack_trace : Option (List TraceFrame)
  exc_info : Option ExcInfo
  pathname : String
  lineno : Int
  funcName : String
  relativeCreated : Nat
deriving DecidableEq, Repr

/-- Rendering configuration: the `color` flag of the formatter instance,
`config.BASE_PATH`, the lazily computed `local_module_base`,
`config.FORMATTER_STACK_FILTER` and the detected console width. -/
structure FormatterCfg where
  color : Bool
  basePath : String
  localModuleBase : String
  stackFilter : Bool
  consoleWidth : Nat
deriving DecidableEq, Repr

/-- Python `str.startswith`, character by character. -/
def strStartsWith (s pre : String) : Bool :=
  listStartsWith pre.data s.data

/-- Python character-level slicing `s[n:]`. -/
def strDropChars (s : String) (n : Nat) : String :=
  String.mk (s.data.drop n)

/-- The `os.path` dance in `caller_location_string` (line 395-396) for
normalized POSIX paths: an absolute path strictly under `BASE_PATH` is made
relative to it (`relpath` of `BASE_PATH` itself is `"."`). -/
def relativizePath (basePath path : String) : String :=
  if strStartsWith path "/" then
    if path = basePath then "."
    else if strStartsWith path (basePath ++ "/") then strDropChars path (basePath.length + 1)
    else path
  else path

/-- `DynamicLogFormatter.caller_location_string` applied to a
(path, line, func) triple with the given prefix. -/
def caller_location_string (cfg : FormatterCfg) (path : String) (line : Int)
    (func : String) (pfx : String) : String :=
  let path := relativizePath cfg.basePath path
  pyLjust (pfx ++ " " ++ path) 100 ' ' ++ " , " ++
    pyLjust ("line # " ++ toString line) 12 ' ' ++ " in " ++ pyLjust func 30 ' '

/-- One line of `DynamicLogFormatter.formatStack`: the final frame gets the
final-frame colour and an empty prefix; a frame under the local module base
(or a relative `.` path) gets the local colour; other frames get the
external colour unless `FORMATTER_STACK_FILTER` drops them. -/
def frameLine (cfg : FormatterCfg) (isLast : Bool) (f : TraceFrame) : String :=
  let eol := if cfg.color then ANSI_CLEOL else ""
  let clear := if cfg.color then ANSI_CLEAR else ""
  if isLast then
    (if cfg.color then COLOR_FINAL_FRAME else "") ++
      caller_location_string cfg f.filename f.lineno f.name "" ++ eol ++ "\n" ++ clear
  else if f.filename.startsWith cfg.localModuleBase || f.filename.startsWith "." then
    (if cfg.color then COLOR_LOCAL_FRAME else "") ++
      caller_location_string cfg f.filename f.lineno f.name "    " ++ eol ++ "\n" ++ clear
  else if !cfg.stackFilter then
    (if cfg.color then COLOR_EXTERNAL_FRAME else "") ++
      caller_location_string cfg f.filename f.lineno f.name "    " ++ eol ++ "\n" ++ clear
  else ""

/-- `DynamicLogFormatter.formatStack` over the frame list (innermost
last). -/
def formatStackStr (cfg : FormatterCfg) : List TraceFrame → String
  | [] => ""
  | [f] => frameLine cfg true f
  | f :: f' :: fs => frameLine cfg false f ++ formatStackStr cfg (f' :: fs)

/-- The context marker banner built at lines 282-293: a `START`/`END`
heading centered at `context_marker_width = 120`, wrapped in the (always
emitted) green marker colour and the colour-conditional clear code. -/
def contextMarkerText (color : Bool) (tag : LogContextStatus) (title : String) : String :=
  match tag with
  | .OPENING =>
    COLOR_CONTEXT_MARKER ++ pyCenter (" START " ++ title ++ " ") 120 '>' ++
      (if color then ANSI_CLEAR else "")
  | .CLOSING =>
    COLOR_CONTEXT_MARKER ++ pyCenter (" END " ++ title ++ " ") 120 '<' ++
      (if color then ANSI_CLEAR else "")
  | _ => ""

/-- The relative timestamp prefix of lines 273-278. -/
def relatimeStamp (ms : Nat) : String :=
  let s0 := ms / 1000
  let m := if s0 ≥ 60 then pyRjust (toString (s0 / 60 % 60)) 2 '0' ++ "m" else ""
  let h := if s0 ≥ 3600 then toString (s0 / 3600) ++ "h" else ""
  let ss := toString (s0 % 60) ++ "s"
  "[" ++ pyRjust h 4 ' ' ++ " " ++ pyRjust m 3 ' ' ++ " " ++ pyRjust ss 3 '0' ++ "] "

/-- The `title` drawn from a heading value at line 171: the heading when it
is a string, else the empty string. -/
def headingText : HeadingVal → String
  | .str s => s
  | .bool _ => ""

/-- Python truthiness of a `Union[str, bool]` heading value (`if closing:`
at line 299). -/
def headingTruthy : HeadingVal → Bool
  | .bool b => b
  | .str s => !s.isEmpty

/-- `heading is not False` (line 302): identity comparison, so `True` and
every string, even the empty one, pass. -/
def headingNotFalse : HeadingVal → Bool
  | .bool false => false
  | _ => true

/-- `DynamicLogFormatter.format` (`src/formatter.py` lines 140-346) for
`None`/string payloads.  A `none` result models a raised exception: the
`TypeError` re-raised when a `None` payload is flagged as a table, and the
`IndexError` of `trace[-1]` when a critical record carries an exception
with an empty traceback.  (The `repr(output).count` heading override never
fires for these payloads since `repr` escapes newlines, and the
debug-print block is compiled out because the module logger level is
`WARNING`.) -/
def formatRecord (cfg : FormatterCfg) (r : FRecord) : Option String :=
  let clear := if cfg.color then ANSI_CLEAR else ""
  let eol := if cfg.color then ANSI_CLEOL else ""
  let prepend : String := ""
  -- `args['heading'] if ... is not False else False` is the identity on
  -- the `Union[str, bool]` domain, since it maps `False` to `False`.
  let heading : HeadingVal := r.argsHeading
  let title : String := headingText heading
  let closing := heading
  let context : Option LogContextStatus :=
    match r.contextArg with
    | some .NOCONTEXT => none
    | c => c
  let relatime := r.relatime
  let stack_trace := r.stack_trace
  let flag_location := r.location
  let table := r.table
  match r.msg, table with
  | none, true => none
  | _, _ =>
    let output : String :=
      match r.msg with
      | some s => s
      | none => "None"
    let level_print : String :=
      if r.levelno = 30 then getLevelName r.levelno ++ " "
      else if r.levelno = 50 then getLevelName r.levelno ++ " "
      else ""
    let highlight0 : String :=
      if r.levelno = 50 then (if cfg.color then COLOR_HIGHLIGHT_CRITICAL else "")
      else ""
    let crit : Option (String × Int × String × String × Bool × String × Option (List TraceFrame)) :=
      if r.levelno = 50 then
        match r.exc_info with
        | some ei =>
          match ei.tb.getLast? with
          | some last =>
            some (last.filename, last.lineno, last.name, output, true,
                  ei.evalueStr ++ " " ++ ei.etypeRepr, some ei.tb)
          | none => none
        | none => some (r.pathname, r.lineno, r.funcName, title, relatime, output, stack_trace)
      else some (r.pathname, r.lineno, r.funcName, title, relatime, output, stack_trace)
    match crit with
    | none => none
    | some (pathname, lineno, funcName, title, relatime, output, stack_trace) =>
      let output :=
        match stack_trace with
        | some frames =>
          output ++ "\n" ++ clear ++
            pyRstrip (pyReplace (formatStackStr cfg frames) "\n" ("\n" ++ clear))
              ("\n" ++ clear) ++ eol ++ clear
        | none => output
      let prependtime := if relatime then relatimeStamp r.relativeCreated else ""
      let context_marker :=
        match context with
        | some tag => contextMarkerText cfg.color tag title
        | none => ""
      let closing := if context.isSome then HeadingVal.bool false else closing
      let heading := if context.isSome then HeadingVal.bool false else heading
      if context.isSome && r.msg.isNone then
        some context_marker
      else
        let title :=
          match r.titleArg with
          | some ta => " " ++ ta ++ " " ++ title
          | none => title
        let output :=
          if headingTruthy closing then
            output ++ "\n" ++ pyCenter (" END " ++ title ++ " ") 50 '<'
          else output
        let title :=
          if headingNotFalse heading || table then
            let title :=
              if title.length ≤ 2 then (if table then " Table " else title) else title
            let title :=
              if !title.isEmpty && title.front == ' ' then title
              else if !title.trim.isEmpty then " " ++ title ++ " " else ""
            pyCenter title (50 - prepend.length) '>' ++ "\n"
          else title
        let colorSel :=
          if r.levelno ≥ 50 then COLOR_CRITICAL
          else if r.levelno ≥ 30 then COLOR_WARNING
          else if r.levelno ≥ 25 then COLOR_NOTICE
          else if r.levelno = 10 then COLOR_DEBUG
          else if r.levelno = 5 then COLOR_TRACE
          else COLOR_DEFAULT
        let flag_location := if r.levelno ≥ 30 then true else flag_location
        let title :=
          if !level_print.isEmpty then
            pyLjust (level_print ++ title) (50 - prepend.length - prependtime.length) ' '
          else title
        let title :=
          if !title.isEmpty && title.back != '\n' then title ++ ": " else title
        let title :=
          if !title.isEmpty && (title.front).isWhitespace then
            let t := title.trimLeft
            if t.data.contains ':' then
              pyLjust (removeLastColonStr t) (50 - prepend.length - prependtime.length) ' ' ++ ": "
            else t
          else title
        let location :=
          if flag_location then
            (if cfg.color then COLOR_LOCATION else "") ++
              caller_location_string cfg pathname lineno funcName ">>>>" ++ eol ++ "\n" ++ clear
          else ""
        let colorF := if cfg.color then colorSel else ""
        let highlight := if highlight0.isEmpty then colorF else highlight0
        let emphDown :=
          if r.emphasis then
            (if cfg.color then COLOR_EMPHASIS else "") ++ replicateStr cfg.consoleWidth '▼' ++ clear
          else ""
        let emphUp :=
          if r.emphasis then
            "\n" ++ (if cfg.color then COLOR_EMPHASIS else "") ++ replicateStr cfg.consoleWidth '▲' ++ clear
          else ""
        some
          (pyReplace
            (pyReplace
              (context_marker ++ emphDown ++
                colorF ++ prependtime ++ location ++ highlight ++ prepend ++ title ++
                clear ++ colorF ++ output ++ eol ++ clear)
              ("\n" ++ clear) (eol ++ clear ++ "\n"))
            "\n" ("\n" ++ replicateStr prependtime.length ' ') ++ emphUp)

/-! ### `Log.removeHandler` (`src/logger.py` lines 269-282) -/

/-- A Python value that can sit in a handler slot: a handler instance (with
its class name and an identity) or a class object itself. -/
inductive PyHandlerVal where
  | inst (cls : String) (id : Nat)
  | clsObj (cls : String)
deriving DecidableEq, Repr

/-- `logging.Logger.removeHandler(hdlr)`: remove `hdlr` from the handler
list if (and only if) it is present. -/
def loggingRemoveHandler (handlers : List PyHandlerVal) (hdlr : PyHandlerVal) :
    List PyHandlerVal :=
  if handlers.contains hdlr then handlers.erase hdlr else handlers

/-- `Log.removeHandler(hdlr, handlerClass)`: with no class, a `None` handler
raises `TypeError`, otherwise defer to `logging.Logger.removeHandler`; with
a class, keep the handlers whose type is not that class. -/
def logRemoveHandler (handlers : List PyHandlerVal) (hdlr : Option PyHandlerVal)
    (handlerClass : Option String) : Except String (List PyHandlerVal) :=
  match handlerClass with
  | none =>
    match hdlr with
    | none => .error "TypeError"
    | some h => .ok (loggingRemoveHandler handlers h)
  | some cls =>
    .ok (handlers.filter (fun h =>
      match h with
      | .inst c _ => c != cls
      | .clsObj _ => true))

/-- The `QuietFileHandler` class object, which the `except OSError` branch
of `Log.log` (line 153) passes *positionally* — so it arrives in the `hdlr`
parameter, not in `handlerClass`. -/
def quietFileHandlerClass : PyHandlerVal := .clsObj "QuietFileHandler"

/-- The handler-list update performed by the `except OSError` branch of
`Log.log`: `self.removeHandler(QuietFileHandler)`. -/
def osErrorRecoveryHandlers (handlers : List PyHandlerVal) :
    Except String (List PyHandlerVal) :=
  logRemoveHandler handlers (some quietFileHandlerClass) none

/-! ### Concrete scopes, records and configurations used as test inputs -/

/-- A scope with a string title, default heading mode and no level
override. -/
def scopeA : LogContext :=
  { obj_idx := 0, title := some "A", heading := .bool true, level := none,
    default_title := none }

/-- A second scope, distinct from `scopeA` by identity. -/
def scopeB : LogContext :=
  { obj_idx := 3, title := some "B", heading := .bool true, level := none,
    default_title := none }

/-- The `title="Fetch"` scope of the spec scenario. -/
def scopeFetch : LogContext :=
  { obj_idx := 2, title := some "Fetch", heading := .bool true, level := none,
    default_title := none }

/-- A scope with a level override of 10 (`DEBUG`). -/
def scopeH10 : LogContext :=
  { obj_idx := 1, title := some "H", heading := .bool true, level := some 10,
    default_title := none }

/-- A colourless formatter configuration. -/
def cfgPlain : FormatterCfg :=
  { color := false, basePath := "/base", localModuleBase := "/base/lib",
    stackFilter := false, consoleWidth := 80 }

/-- An OPENING marker record as synthesized by
`Log.logContextStatusOpening` for a scope whose heading resolves to
`"Fetch"`. -/
def markerRecFetch : FRecord :=
  { msg := none, levelno := 20, argsHeading := .str "Fetch",
    contextArg := some .OPENING, titleArg := none, relatime := true,
    location := false, table := false, emphasis := false, stack_trace := none,
    exc_info := none, pathname := "call.py", lineno := 3, funcName := "caller",
    relativeCreated := 5000 }

/-- The raising (innermost) traceback frame of the C7 scenario: file `X`,
line 7. -/
def frameX7 : TraceFrame := { filename := "X", lineno := 7, name := "raiser" }

/-- An attached exception whose innermost frame is `frameX7`. -/
def excInfoX7 : ExcInfo :=
  { etypeRepr := "ValueError", evalueStr := "bad value",
    tb := [ { filename := "/base/lib/mod.py", lineno := 3, name := "outer" },
            frameX7 ] }

/-- A critical record carrying an exception whose raising frame is at file
`X` line 7, while the log call site is `call.py` line 99. -/
def critRecX7 : FRecord :=
  { msg := some "boom happened", levelno := 50, argsHeading := .bool false,
    contextArg := none, titleArg := none, relatime := false, location := false,
    table := false, emphasis := false, stack_trace := none,
    exc_info := some excInfoX7,
    pathname := "call.py", lineno := 99, funcName := "caller",
    relativeCreated := 65000 }

/-! ### String-level helper lemmas -/

theorem str_data_append (a b : String) : (a ++ b).data = a.data ++ b.data := by
  cases a
  cases b
  rfl

theorem str_ext {a b : String} (h : a.data = b.data) : a = b := by
  cases a
  cases b
  exact congrArg String.mk h

theorem str_append_assoc (a b c : String) : a ++ b ++ c = a ++ (b ++ c) :=
  str_ext (by simp [str_data_append])

@[simp]
theorem str_append_empty (a : String) : a ++ "" = a :=
  str_ext (by simp [str_data_append])

@[simp]
theorem str_empty_append (a : String) : "" ++ a = a :=
  str_ext (by simp [str_data_append])

theorem listStartsWith_singleton (c x : Char) (xs : List Char) :
    listStartsWith [c] (x :: xs) = (c == x) := by
  simp [listStartsWith]

theorem pyReplaceAux_singleton_cons (c : Char) (rep : List Char) (x : Char)
    (xs : List Char) :
    pyReplaceAux [c] rep (xs.length + 1) (x :: xs) =
      if c == x then rep ++ pyReplaceAux [c] rep xs.length xs
      else x :: pyReplaceAux [c] rep xs.length xs := by
  conv_lhs => rw [pyReplaceAux]
  rw [listStartsWith_singleton]
  simp [List.isEmpty]

theorem pyReplaceAux_singleton_self (c : Char) :
    ∀ l : List Char, pyReplaceAux [c] [c] l.length l = l := by
  intro l
  induction l with
  | nil => rfl
  | cons x xs ih =>
    rw [show (x :: xs).length = xs.length + 1 from rfl, pyReplaceAux_singleton_cons]
    split
    · next h => simp [ih, (eq_of_beq h).symm]
    · simp [ih]

theorem pyReplaceAux_singleton_append (c : Char) (rep : List Char) :
    ∀ l1 l2 : List Char,
      pyReplaceAux [c] rep (l1 ++ l2).length (l1 ++ l2) =
        pyReplaceAux [c] rep l1.length l1 ++ pyReplaceAux [c] rep l2.length l2 := by
  intro l1 l2
  induction l1 with
  | nil => rfl
  | cons x xs ih =>
    rw [show ((x :: xs) ++ l2).length = (xs ++ l2).length + 1 from rfl]
    rw [show (x :: xs) ++ l2 = x :: (xs ++ l2) from rfl, pyReplaceAux_singleton_cons]
    rw [show (x :: xs).length = xs.length + 1 from rfl, pyReplaceAux_singleton_cons]
    split
    · rw [ih, List.append_assoc]
    · rw [ih, List.cons_append]

theorem pyReplaceAux_singleton_of_not_mem (c : Char) (rep : List Char) :
    ∀ l : List Char, c ∉ l → pyReplaceAux [c] rep l.length l = l := by
  intro l
  induction l with
  | nil => exact fun _ => rfl
  | cons x xs ih =>
    intro h
    rw [show (x :: xs).length = xs.length + 1 from rfl, pyReplaceAux_singleton_cons]
    have hc : (c == x) = false := by
      simp only [beq_eq_false_iff_ne, ne_eq]
      exact fun hcx => h (hcx ▸ List.mem_cons_self x xs)
    rw [hc]
    simp [ih fun hx => h (List.mem_cons_of_mem x hx)]

theorem nl_data : ("\n" : String).data = ['\n'] := rfl

@[simp]
theorem pyReplace_nl_self (s : String) : pyReplace s "\n" "\n" = s := by
  cases s with
  | mk data =>
    unfold pyReplace
    rw [nl_data]
    exact congrArg String.mk (pyReplaceAux_singleton_self '\n' data)

theorem pyReplace_nl_append (a b rep : String) :
    pyReplace (a ++ b) "\n" rep = pyReplace a "\n" rep ++ pyReplace b "\n" rep := by
  refine str_ext ?_
  show (pyReplace (a ++ b) "\n" rep).data = _
  unfold pyReplace
  rw [nl_data, str_data_append]
  show pyReplaceAux ['\n'] rep.data (a.data ++ b.data).length (a.data ++ b.data) = _
  rw [pyReplaceAux_singleton_append]
  rfl

theorem pyReplace_nl_of_not_mem (s rep : String) (h : '\n' ∉ s.data) :
    pyReplace s "\n" rep = s := by
  cases s with
  | mk data =>
    unfold pyReplace
    rw [nl_data]
    exact congrArg String.mk (pyReplaceAux_singleton_of_not_mem '\n' rep.data data h)

/-! ### Shared lemmas about the emission pipeline -/

theorem countStep_eq_of_ne (st : LogState) (h : st.status ≠ .CURRENT) :
    countStep st = st := by
  unfold countStep
  rw [if_neg h]

theorem closePhase_recs (st : LogState) :
    (closePhase st).2 = [] ∨
      ∃ a, (closePhase st).2 = [LogRecord.marker .CLOSING a INFO_LEVEL] := by
  unfold closePhase logContextStatusClosing
  split
  · cases hc : st.context_current with
    | none => exact Or.inl rfl
    | some cur =>
      simp only [hc]
      split
      · split
        · exact Or.inr ⟨closingHeadingArg cur, rfl⟩
        · exact Or.inl rfl
      · exact Or.inl rfl
  · exact Or.inl rfl

theorem promoteStep_recs (st : LogState) :
    (promoteStep st).2 = [] ∨
      ∃ a, (promoteStep st).2 = [LogRecord.marker .OPENING a INFO_LEVEL] := by
  unfold promoteStep logContextStatusOpening
  cases hp : st.context_pending with
  | none => exact Or.inl rfl
  | some p =>
    simp only
    split
    · split
      · exact Or.inr ⟨openingHeadingArg p, rfl⟩
      · exact Or.inl rfl
    · exact Or.inl rfl

theorem realRecs_cases (lv : Int) (p : String) (t : Option String) (st : LogState) :
    realRecs lv p t st = [] ∨
      realRecs lv p t st = [LogRecord.message p lv (mergedTitle st.loggerTitle t)] := by
  unfold realRecs
  split
  · exact Or.inr rfl
  · exact Or.inl rfl

theorem enterOp_new_scope (B : LogContext) (st : LogState) (A : LogContext)
    (hcur : st.context_current = some A) (hidx : B.obj_idx ≠ A.obj_idx) :
    (enterOp B st).status = .CLOSING ∧
    (enterOp B st).context_current = some A ∧
    (enterOp B st).context_pending = some B ∧
    (enterOp B st).loggerLevel =
      (match B.level with | some l => l | none => st.loggerLevel) := by
  have hne : (A.obj_idx != B.obj_idx) = true := by
    simp [bne_iff_ne]
    exact fun hh => hidx hh.symm
  have hne2 : (A.obj_idx == B.obj_idx) = false := by
    simp
    exact fun hh => hidx hh.symm
  unfold enterOp
  cases hl : B.level <;> simp [hl, hcur, hne, hne2]

theorem logContextStatusClosing_of_current (st : LogState) (cur : LogContext)
    (hcur : st.context_current = some cur) (hh : headingEnabled cur = true)
    (hl : closingExitLevel cur ≤ INFO_LEVEL) :
    (logContextStatusClosing st).2 =
      [LogRecord.marker .CLOSING (closingHeadingArg cur) INFO_LEVEL] ∧
    (logContextStatusClosing st).1.status = .NOCONTEXT ∧
    (logContextStatusClosing st).1.context_pending = st.context_pending ∧
    (logContextStatusClosing st).1.loggerLevel = st.loggerLevel ∧
    (logContextStatusClosing st).1.loggerTitle = st.loggerTitle := by
  unfold logContextStatusClosing
  simp [hcur, hh, hl]

theorem promoteStep_of_pending (st : LogState) (B : LogContext)
    (hp : st.context_pending = some B) (hB : headingEnabled B = true)
    (hl : INFO_LEVEL ≥ st.loggerLevel) :
    (promoteStep st).2 = [LogRecord.marker .OPENING (openingHeadingArg B) INFO_LEVEL] := by
  unfold promoteStep logContextStatusOpening
  simp [hp, hB, hl]

theorem countStep_status (st : LogState) : (countStep st).status = st.status := by
  unfold countStep
  split
  · cases hc : st.context_current <;> simp [hc]
  · rfl

theorem enterOp_status_cases (c : LogContext) (st : LogState) :
    (enterOp c st).status = st.status ∨ (enterOp c st).status = .CLOSING ∨
      (enterOp c st).status = .CURRENT := by
  unfold enterOp
  cases hl : c.level <;> cases hc : st.context_current <;>
    simp only [hl, hc] <;> split_ifs <;> simp

theorem exitOp_status_cases (c : LogContext) (st : LogState) :
    (exitOp c st).status = st.status ∨ (exitOp c st).status = .CLOSING := by
  unfold exitOp
  cases hl : c.level <;> cases ht : c.title <;>
    simp only [hl, ht] <;> split_ifs <;> simp

theorem closePhase_post (st : LogState) :
    (closePhase st).1.status = .NOCONTEXT ∨
      ((closePhase st).1 = st ∧ st.status ≠ .CLOSING) := by
  unfold closePhase
  split
  · left
    simp [logContextStatusClosing]
  · right
    exact ⟨rfl, by assumption⟩

theorem promoteStep_post (st : LogState) :
    ((promoteStep st).1.status = .CURRENT ∧ (promoteStep st).1.context_pending = none) ∨
      ((promoteStep st).1 = st ∧ st.context_pending = none) := by
  unfold promoteStep
  cases hp : st.context_pending with
  | none => exact Or.inr ⟨rfl, rfl⟩
  | some p =>
    left
    simp [logContextStatusOpening]

theorem logOp_post (lv : Int) (p : String) (t : Option String) (st : LogState)
    (h : st.status ≠ .OPENING) :
    ((logOp lv p t st).1.status = .NOCONTEXT ∨ (logOp lv p t st).1.status = .CURRENT) ∧
      (logOp lv p t st).1.context_pending = none := by
  have hdef : (logOp lv p t st).1 = (promoteStep (closePhase (countStep st)).1).1 := rfl
  rw [hdef]
  rcases promoteStep_post (closePhase (countStep st)).1 with ⟨hs, hp⟩ | ⟨he, hp⟩
  · exact ⟨Or.inr hs, hp⟩
  · rw [he]
    refine ⟨?_, hp⟩
    rcases closePhase_post (countStep st) with hN | ⟨hE, hne⟩
    · exact Or.inl hN
    · rw [hE, countStep_status] at *
      cases hstat : st.status <;> simp_all

theorem runOps_status_ne_opening (evs : List LogEvent) (st : LogState)
    (h : st.status ≠ .OPENING) : (runOps st evs).1.status ≠ .OPENING := by
  induction evs generalizing st with
  | nil => exact h
  | cons e es ih =>
    refine ih (stepOp st e).1 ?_
    cases e with
    | enter c =>
      rcases enterOp_status_cases c st with h1 | h1 | h1 <;>
        simp only [stepOp] <;> rw [h1] <;> first | exact h | decide
    | exitScope c =>
      rcases exitOp_status_cases c st with h1 | h1 <;>
        simp only [stepOp] <;> rw [h1] <;> first | exact h | decide
    | log lv p t =>
      rcases (logOp_post lv p t st h).1 with h1 | h1 <;>
        simp only [stepOp] <;> rw [h1] <;> decide

theorem runOps_append_fst (st : LogState) (l1 l2 : List LogEvent) :
    (runOps st (l1 ++ l2)).1 = (runOps (runOps st l1).1 l2).1 := by
  induction l1 generalizing st with
  | nil => rfl
  | cons e es ih => simpa [runOps] using ih (stepOp st e).1

/-! ### C1 -/

/-- C1: failing-input evaluation.  A scope (heading enabled) entered and
exited with zero `log` calls inside it emits no record while it is active,
but — because `__exit__` never clears `context_pending` — the very next
`log` call on the shared state promotes the already-exited scope and emits
an OPENING marker for it.  The claim (and the documented role of
`context_count`) requires that no marker for the scope is ever produced. -/
theorem C1_empty_scope_marker_leak :
    (runOps (initState 0) [.enter scopeA, .exitScope scopeA]).2 = [] ∧
    (runOps (initState 0) [.enter scopeA, .exitScope scopeA, .log 20 "x" none]).2 =
      [LogRecord.marker .OPENING (.str "A") 20, LogRecord.message "x" 20 none] ∧
    openingCount
      (runOps (initState 0) [.enter scopeA, .exitScope scopeA, .log 20 "x" none]).2 = 1 :=
  ⟨rfl, rfl, rfl⟩

/-! ### C2 -/

/-- C2: counterexample.  For the single-threaded sequence
`enter A; log "a"; exit A` the code emits one OPENING marker and zero
CLOSING markers (the CLOSING marker would only be emitted by a *later* log
call), so the claimed equality of total OPENING and CLOSING marker counts
fails. -/
theorem C2_marker_counts_counterexample :
    openingCount (runOps (initState 0)
      [.enter scopeA, .log 20 "a" none, .exitScope scopeA]).2 = 1 ∧
    closingCount (runOps (initState 0)
      [.enter scopeA, .log 20 "a" none, .exitScope scopeA]).2 = 0 ∧
    openingCount (runOps (initState 0)
        [.enter scopeA, .log 20 "a" none, .exitScope scopeA]).2 ≠
      closingCount (runOps (initState 0)
        [.enter scopeA, .log 20 "a" none, .exitScope scopeA]).2 :=
  ⟨rfl, rfl, by decide⟩

/-- C2 (amended): for a scope whose heading resolves to a string, the
OPENING and CLOSING markers carry the same heading text; and every single
`log` call emits at most one CLOSING marker, then at most one OPENING
marker, then at most one body record, in that order.  (The global equality
of marker counts over a whole sequence does not hold, since a CLOSING
marker is emitted only by the next `log` call after `exit` and markers are
level-filtered independently.) -/
theorem C2_markers_amended (c : LogContext) (h : String)
    (hc : getHeading c = some h) :
    openingHeadingArg c = .str h ∧ closingHeadingArg c = .str h ∧
    ∀ (st : LogState) (lv : Int) (p : String) (t : Option String),
      ∃ cl op re,
        (logOp lv p t st).2 = cl ++ op ++ re ∧
        cl.length ≤ 1 ∧ op.length ≤ 1 ∧ re.length ≤ 1 ∧
        (∀ x ∈ cl, isClosingMarker x = true) ∧
        (∀ x ∈ op, isOpeningMarker x = true) ∧
        (∀ x ∈ re, isClosingMarker x = false ∧ isOpeningMarker x = false) := by
  refine ⟨by simp [openingHeadingArg, hc, fstrOpt], by simp [closingHeadingArg, hc], ?_⟩
  intro st lv p t
  refine ⟨(closePhase (countStep st)).2,
          (promoteStep (closePhase (countStep st)).1).2,
          realRecs lv p t (promoteStep (closePhase (countStep st)).1).1,
          rfl, ?_, ?_, ?_, ?_, ?_, ?_⟩
  · rcases closePhase_recs (countStep st) with h1 | ⟨a, h1⟩ <;> simp [h1]
  · rcases promoteStep_recs (closePhase (countStep st)).1 with h1 | ⟨a, h1⟩ <;> simp [h1]
  · rcases realRecs_cases lv p t (promoteStep (closePhase (countStep st)).1).1 with h1 | h1 <;>
      simp [h1]
  · rcases closePhase_recs (countStep st) with h1 | ⟨a, h1⟩ <;>
      simp [h1, isClosingMarker]
  · rcases promoteStep_recs (closePhase (countStep st)).1 with h1 | ⟨a, h1⟩ <;>
      simp [h1, isOpeningMarker]
  · rcases realRecs_cases lv p t (promoteStep (closePhase (countStep st)).1).1 with h1 | h1 <;>
      simp [h1, isClosingMarker, isOpeningMarker]

/-- C2 (amended) witness at the scope `scopeFetch`. -/
theorem C2_markers_amended_witness :
    getHeading scopeFetch = some "Fetch" ∧
    (openingHeadingArg scopeFetch = .str "Fetch" ∧
     closingHeadingArg scopeFetch = .str "Fetch" ∧
     ∀ (st : LogState) (lv : Int) (p : String) (t : Option String),
       ∃ cl op re,
         (logOp lv p t st).2 = cl ++ op ++ re ∧
         cl.length ≤ 1 ∧ op.length ≤ 1 ∧ re.length ≤ 1 ∧
         (∀ x ∈ cl, isClosingMarker x = true) ∧
         (∀ x ∈ op, isOpeningMarker x = true) ∧
         (∀ x ∈ re, isClosingMarker x = false ∧ isOpeningMarker x = false)) :=
  ⟨rfl, C2_markers_amended scopeFetch "Fetch" rfl⟩

/-! ### C3 -/

/-- C3: when a second scope `B` is entered while a first scope `A` is
CURRENT and a log call follows with no intervening log between the entries,
that log call emits `A`'s CLOSING marker strictly before `B`'s OPENING
marker (and then the body record): close-before-open holds whenever both
markers are emitted (headings enabled, levels permitting). -/
theorem C3_close_before_open (st : LogState) (A B : LogContext) (lv : Int)
    (p : String) (t : Option String)
    (_hst : st.status = .CURRENT) (hcur : st.context_current = some A)
    (hidx : B.obj_idx ≠ A.obj_idx)
    (hA : headingEnabled A = true) (hB : headingEnabled B = true)
    (hlA : closingExitLevel A ≤ INFO_LEVEL)
    (hlB : (match B.level with | some l => l | none => st.loggerLevel) ≤ INFO_LEVEL) :
    ∃ re, (runOps st [.enter B, .log lv p t]).2 =
      LogRecord.marker .CLOSING (closingHeadingArg A) INFO_LEVEL ::
      LogRecord.marker .OPENING (openingHeadingArg B) INFO_LEVEL :: re := by
  obtain ⟨h1, h2, h3, h4⟩ := enterOp_new_scope B st A hcur hidx
  have hcount : countStep (enterOp B st) = enterOp B st :=
    countStep_eq_of_ne _ (by rw [h1]; decide)
  have hclose : closePhase (enterOp B st) = logContextStatusClosing (enterOp B st) := by
    unfold closePhase
    rw [if_pos h1]
  obtain ⟨hc2, _, hcp, hcl, _⟩ := logContextStatusClosing_of_current (enterOp B st) A h2 hA hlA
  have hp' : (logContextStatusClosing (enterOp B st)).1.context_pending = some B := by
    rw [hcp, h3]
  have hopen : (promoteStep (logContextStatusClosing (enterOp B st)).1).2 =
      [LogRecord.marker .OPENING (openingHeadingArg B) INFO_LEVEL] := by
    refine promoteStep_of_pending _ B hp' hB ?_
    rw [hcl, h4]
    exact hlB
  refine ⟨realRecs lv p t (promoteStep (logContextStatusClosing (enterOp B st)).1).1, ?_⟩
  simp [runOps, stepOp, logOp, hcount, hclose, hc2, hopen]

/-- C3 witness: concrete run in which `scopeA` is CURRENT and `scopeB` is
entered back-to-back; the next log call emits CLOSING for `scopeA` then
OPENING for `scopeB`. -/
theorem C3_close_before_open_witness :
    (runOps (initState 0) [.enter scopeA, .log 20 "a" none]).1.status = .CURRENT ∧
    (runOps (initState 0) [.enter scopeA, .log 20 "a" none]).1.context_current = some scopeA ∧
    scopeB.obj_idx ≠ scopeA.obj_idx ∧
    headingEnabled scopeA = true ∧ headingEnabled scopeB = true ∧
    closingExitLevel scopeA ≤ INFO_LEVEL ∧
    (match scopeB.level with
     | some l => l
     | none => (runOps (initState 0) [.enter scopeA, .log 20 "a" none]).1.loggerLevel) ≤
      INFO_LEVEL ∧
    ∃ re, (runOps (runOps (initState 0) [.enter scopeA, .log 20 "a" none]).1
        [.enter scopeB, .log 20 "z" none]).2 =
      LogRecord.marker .CLOSING (closingHeadingArg scopeA) INFO_LEVEL ::
      LogRecord.marker .OPENING (openingHeadingArg scopeB) INFO_LEVEL :: re :=
  ⟨rfl, rfl, by decide, rfl, rfl, by decide, by decide,
    C3_close_before_open _ scopeA scopeB 20 "z" none rfl rfl (by decide) rfl rfl
      (by decide) (by decide)⟩

/-! ### C4 -/

/-- C4: re-entering the scope whose identity token matches the current
scope's is idempotent on the context state: `__enter__` emits nothing,
leaves `current`/`pending`/`prior` and every message counter unchanged, and
only cancels a pending `CLOSING` status back to `CURRENT`; in particular no
duplicate OPENING marker is produced for the scope. -/
theorem C4_reenter_idempotent (st : LogState) (c cur : LogContext)
    (hcur : st.context_current = some cur) (hidx : cur.obj_idx = c.obj_idx) :
    (stepOp st (.enter c)).2 = [] ∧
    (enterOp c st).context_current = st.context_current ∧
    (enterOp c st).context_pending = st.context_pending ∧
    (enterOp c st).context_prior = st.context_prior ∧
    (enterOp c st).counts = st.counts ∧
    (enterOp c st).status = (if st.status = .CLOSING then .CURRENT else st.status) := by
  have hne : (cur.obj_idx != c.obj_idx) = false := by simp [hidx]
  have heq : (cur.obj_idx == c.obj_idx) = true := by simp [hidx]
  unfold enterOp
  cases hl : c.level <;> by_cases hs : st.status = .CLOSING <;>
    simp [hl, hcur, hne, heq, hs, stepOp]

/-- C4 witness: re-entering `scopeFetch` while it is the current scope. -/
theorem C4_reenter_idempotent_witness :
    (runOps (initState 0) [.enter scopeFetch, .log 20 "a" none]).1.context_current =
      some scopeFetch ∧
    scopeFetch.obj_idx = scopeFetch.obj_idx ∧
    ((stepOp (runOps (initState 0) [.enter scopeFetch, .log 20 "a" none]).1
        (.enter scopeFetch)).2 = [] ∧
     (enterOp scopeFetch (runOps (initState 0) [.enter scopeFetch, .log 20 "a" none]).1).context_current =
       (runOps (initState 0) [.enter scopeFetch, .log 20 "a" none]).1.context_current ∧
     (enterOp scopeFetch (runOps (initState 0) [.enter scopeFetch, .log 20 "a" none]).1).context_pending =
       (runOps (initState 0) [.enter scopeFetch, .log 20 "a" none]).1.context_pending ∧
     (enterOp scopeFetch (runOps (initState 0) [.enter scopeFetch, .log 20 "a" none]).1).context_prior =
       (runOps (initState 0) [.enter scopeFetch, .log 20 "a" none]).1.context_prior ∧
     (enterOp scopeFetch (runOps (initState 0) [.enter scopeFetch, .log 20 "a" none]).1).counts =
       (runOps (initState 0) [.enter scopeFetch, .log 20 "a" none]).1.counts ∧
     (enterOp scopeFetch (runOps (initState 0) [.enter scopeFetch, .log 20 "a" none]).1).status =
       (if (runOps (initState 0) [.enter scopeFetch, .log 20 "a" none]).1.status = .CLOSING
        then .CURRENT
        else (runOps (initState 0) [.enter scopeFetch, .log 20 "a" none]).1.status)) :=
  ⟨rfl, rfl, C4_reenter_idempotent _ scopeFetch scopeFetch rfl rfl⟩

/-! ### C5 -/

/-- C5: counterexample.  For a scope with level override 10 the emitted
CLOSING marker record has severity 20 (`heading_level`, i.e. INFO), not the
scope's own level override 10 as claimed: the override is only installed
temporarily as the logger's threshold while the marker is logged. -/
theorem C5_marker_severity_counterexample :
    (runOps (initState 0)
      [.enter scopeH10, .log 20 "m" none, .exitScope scopeH10, .log 20 "x" none]).2 =
      [LogRecord.marker .OPENING (.str "H") 20,
       LogRecord.message "m" 20 (some "H"),
       LogRecord.marker .CLOSING (.str "H") 20,
       LogRecord.message "x" 20 none] ∧
    scopeH10.level = some 10 ∧ (20 : Int) ≠ 10 :=
  ⟨rfl, rfl, by decide⟩

/-- C5 (amended): when a record is processed while the status is `CLOSING`
and the closing scope's heading is enabled, the synthesized CLOSING marker
carries the scope's resolved heading and is logged at severity
`heading_level` (INFO, 20); the scope's own level override is installed
only as the logger's temporary threshold, so the marker is emitted exactly
when that threshold (the override, or INFO when absent) is at most INFO,
and it precedes everything else the call emits. -/
theorem C5_closing_marker_amended (st : LogState) (cur : LogContext) (lv : Int)
    (p : String) (t : Option String)
    (hst : st.status = .CLOSING) (hcur : st.context_current = some cur)
    (hh : headingEnabled cur = true) :
    ∃ re, (logOp lv p t st).2 =
      (if closingExitLevel cur ≤ INFO_LEVEL then
        [LogRecord.marker .CLOSING (closingHeadingArg cur) INFO_LEVEL]
       else []) ++ re := by
  have hcount : countStep st = st := countStep_eq_of_ne st (by rw [hst]; decide)
  have hclose : closePhase st = logContextStatusClosing st := by
    unfold closePhase
    rw [if_pos hst]
  have hrec : (logContextStatusClosing st).2 =
      (if closingExitLevel cur ≤ INFO_LEVEL then
        [LogRecord.marker .CLOSING (closingHeadingArg cur) INFO_LEVEL]
       else []) := by
    unfold logContextStatusClosing
    simp [hcur, hh]
  refine ⟨(promoteStep (logContextStatusClosing st).1).2 ++
          realRecs lv p t (promoteStep (logContextStatusClosing st).1).1, ?_⟩
  simp [logOp, hcount, hclose, hrec]

/-- C5 (amended) witness: exiting `scopeH10` (override 10) and logging
again; the marker is emitted (10 ≤ 20) with severity 20. -/
theorem C5_closing_marker_amended_witness :
    (runOps (initState 0)
      [.enter scopeH10, .log 20 "m" none, .exitScope scopeH10]).1.status = .CLOSING ∧
    (runOps (initState 0)
      [.enter scopeH10, .log 20 "m" none, .exitScope scopeH10]).1.context_current =
      some scopeH10 ∧
    headingEnabled scopeH10 = true ∧
    ∃ re, (logOp 20 "x" none
        (runOps (initState 0)
          [.enter scopeH10, .log 20 "m" none, .exitScope scopeH10]).1).2 =
      (if closingExitLevel scopeH10 ≤ INFO_LEVEL then
        [LogRecord.marker .CLOSING (closingHeadingArg scopeH10) INFO_LEVEL]
       else []) ++ re :=
  ⟨rfl, rfl, rfl, C5_closing_marker_amended _ scopeH10 20 "x" none rfl rfl rfl⟩

/-! ### C8 -/

/-- C8: failing-input evaluation.  The `except OSError` branch of `Log.log`
calls `self.removeHandler(QuietFileHandler)`, passing the *class object*
positionally into the `hdlr` parameter; `logging.Logger.removeHandler` then
looks for that class object in the handler list, where only instances live,
so nothing is removed: after the recovery the failing `QuietFileHandler`
instance is still attached, contradicting both the claim and the code's own
comment ("drop the file handler and keep logging to console"). -/
theorem C8_failing_sink_not_detached :
    osErrorRecoveryHandlers
      [.inst "QuietFileHandler" 0, .inst "StreamHandler" 1] =
      .ok [.inst "QuietFileHandler" 0, .inst "StreamHandler" 1] :=
  rfl

/-! ### C9 -/

/-- C9: counterexample.  The sequence
`enter(title="Fetch"); log "a"; log "b"; exit()` yields the OPENING marker
and the two body lines but *no* CLOSING marker, and after `exit()` returns
the global status is `CLOSING`, not `NOCONTEXT` as claimed. -/
theorem C9_scenario_counterexample :
    (runOps (initState 0)
      [.enter scopeFetch, .log 20 "a" none, .log 20 "b" none,
       .exitScope scopeFetch]).2 =
      [LogRecord.marker .OPENING (.str "Fetch") 20,
       LogRecord.message "a" 20 (some "Fetch"),
       LogRecord.message "b" 20 (some "Fetch")] ∧
    closingCount (runOps (initState 0)
      [.enter scopeFetch, .log 20 "a" none, .log 20 "b" none,
       .exitScope scopeFetch]).2 = 0 ∧
    ((runOps (initState 0)
      [.enter scopeFetch, .log 20 "a" none, .log 20 "b" none,
       .exitScope scopeFetch]).1).status = .CLOSING ∧
    LogContextStatus.CLOSING ≠ LogContextStatus.NOCONTEXT :=
  ⟨rfl, rfl, rfl, by decide⟩

/-- C9 (amended): the scenario yields the OPENING marker titled "Fetch" and
the two body lines; `exit()` leaves the status `CLOSING` with no CLOSING
marker emitted yet; the CLOSING marker titled "Fetch" is then emitted by
the next `log` call (before that call's own body record), after which the
status is `NOCONTEXT`. -/
theorem C9_scenario_amended :
    (runOps (initState 0)
      [.enter scopeFetch, .log 20 "a" none, .log 20 "b" none,
       .exitScope scopeFetch]).1.status = .CLOSING ∧
    (runOps (initState 0)
      [.enter scopeFetch, .log 20 "a" none, .log 20 "b" none,
       .exitScope scopeFetch, .log 20 "c" none]).2 =
      [LogRecord.marker .OPENING (.str "Fetch") 20,
       LogRecord.message "a" 20 (some "Fetch"),
       LogRecord.message "b" 20 (some "Fetch"),
       LogRecord.marker .CLOSING (.str "Fetch") 20,
       LogRecord.message "c" 20 none] ∧
    (runOps (initState 0)
      [.enter scopeFetch, .log 20 "a" none, .log 20 "b" none,
       .exitScope scopeFetch, .log 20 "c" none]).1.status = .NOCONTEXT :=
  ⟨rfl, rfl, rfl⟩

/-! ### C6 -/

/-- C6: for a record tagged OPENING or CLOSING whose payload is empty (and
which is an actual marker record, i.e. not simultaneously a critical record
with an attached exception, and with no table flag), the render engine
returns exactly the single centered `START <heading>` / `END <heading>`
banner at the fixed context-marker width of 120 — no timestamp prefix,
location tag, title block, body or footer is appended. -/
theorem C6_marker_render (cfg : FormatterCfg) (r : FRecord) (tag : LogContextStatus)
    (hctx : r.contextArg = some tag)
    (htag : tag = .OPENING ∨ tag = .CLOSING)
    (hmsg : r.msg = none) (htab : r.table = false)
    (hcrit : ¬(r.levelno = 50 ∧ r.exc_info.isSome = true)) :
    formatRecord cfg r = some (contextMarkerText cfg.color tag (headingText r.argsHeading)) := by
  have hexc2 : r.levelno = 50 → r.exc_info = none := by
    intro hl
    cases hx : r.exc_info with
    | none => rfl
    | some v => exact absurd ⟨hl, by rw [hx]; rfl⟩ hcrit
  rcases htag with rfl | rfl <;> by_cases hl : r.levelno = 50
  · have he := hexc2 hl
    simp [formatRecord, hmsg, htab, hctx, hl, he]
  · simp [formatRecord, hmsg, htab, hctx, hl]
  · have he := hexc2 hl
    simp [formatRecord, hmsg, htab, hctx, hl, he]
  · simp [formatRecord, hmsg, htab, hctx, hl]

/-- C6 witness: the OPENING marker record with heading `"Fetch"` renders to
exactly the centered banner. -/
theorem C6_marker_render_witness :
    markerRecFetch.contextArg = some .OPENING ∧
    (LogContextStatus.OPENING = .OPENING ∨ LogContextStatus.OPENING = .CLOSING) ∧
    markerRecFetch.msg = none ∧
    markerRecFetch.table = false ∧
    ¬(markerRecFetch.levelno = 50 ∧ markerRecFetch.exc_info.isSome = true) ∧
    formatRecord cfgPlain markerRecFetch =
      some (contextMarkerText cfgPlain.color .OPENING (headingText markerRecFetch.argsHeading)) :=
  ⟨rfl, Or.inl rfl, rfl, rfl, by decide,
    C6_marker_render cfgPlain markerRecFetch .OPENING rfl (Or.inl rfl) rfl rfl (by decide)⟩

/-! ### C7 -/

set_option maxHeartbeats 1000000

/-- C7: a critical record carrying an attached exception (non-empty
traceback, innermost frame `last`) renders with the caller location rewritten
to the exception's raise site: the output contains the location line built
from `last.filename` / `last.lineno` / `last.name`; a formatted stack
(`formatStack` over the traceback frames) is included in the output; and the
record's own call-site fields (`pathname`, `lineno`, `funcName`) have no
influence on the rendered text at all.  Stated for the colourless formatter
with plain marker-free rendering hints, for any raise-site location line
that contains no newline. -/
theorem C7_critical_exception_location (cfg : FormatterCfg) (r : FRecord)
    (ei : ExcInfo) (last : TraceFrame) (p : String)
    (hcol : cfg.color = false)
    (hlvl : r.levelno = 50)
    (hexc : r.exc_info = some ei)
    (hlast : ei.tb.getLast? = some last)
    (hmsg : r.msg = some p)
    (hctx : r.contextArg = none)
    (hhead : r.argsHeading = .bool false)
    (htitle : r.titleArg = none)
    (htab : r.table = false)
    (hemph : r.emphasis = false)
    (hnl : '\n' ∉ (caller_location_string cfg last.filename last.lineno last.name ">>>>").data) :
    (∃ a b, formatRecord cfg r =
      some (a ++ caller_location_string cfg last.filename last.lineno last.name ">>>>" ++ b)) ∧
    (∃ a2 b2, formatRecord cfg r =
      some (a2 ++
        pyReplace (pyRstrip (formatStackStr cfg ei.tb) "\n") "\n"
          ("\n" ++ replicateStr (relatimeStamp r.relativeCreated).length ' ') ++ b2)) ∧
    (∀ pn ln fn, formatRecord cfg
        { r with pathname := pn, lineno := ln, funcName := fn } = formatRecord cfg r) := by
  obtain ⟨T, hred⟩ : ∃ T, formatRecord cfg r =
      some (pyReplace
        ((relatimeStamp r.relativeCreated ++
           (caller_location_string cfg last.filename last.lineno last.name ">>>>" ++ "\n")) ++ T ++
         ((ei.evalueStr ++ " " ++ ei.etypeRepr ++ "\n") ++
           pyRstrip (formatStackStr cfg ei.tb) "\n"))
        "\n" ("\n" ++ replicateStr (relatimeStamp r.relativeCreated).length ' ')) := by
    simp [formatRecord, hcol, hlvl, hexc, hlast, hmsg, hctx, hhead, htitle, htab, hemph,
      headingNotFalse, headingTruthy]
    exact ⟨_, rfl⟩
  have hL := pyReplace_nl_of_not_mem
    (caller_location_string cfg last.filename last.lineno last.name ">>>>")
    ("\n" ++ replicateStr (relatimeStamp r.relativeCreated).length ' ') hnl
  refine ⟨?_, ?_, ?_⟩
  · refine ⟨pyReplace (relatimeStamp r.relativeCreated) "\n"
        ("\n" ++ replicateStr (relatimeStamp r.relativeCreated).length ' '),
      (pyReplace "\n" "\n" ("\n" ++ replicateStr (relatimeStamp r.relativeCreated).length ' ') ++
        pyReplace T "\n" ("\n" ++ replicateStr (relatimeStamp r.relativeCreated).length ' ')) ++
      pyReplace ((ei.evalueStr ++ " " ++ ei.etypeRepr ++ "\n") ++
          pyRstrip (formatStackStr cfg ei.tb) "\n") "\n"
        ("\n" ++ replicateStr (relatimeStamp r.relativeCreated).length ' '), ?_⟩
    rw [hred]
    refine congrArg some ?_
    simp only [pyReplace_nl_append, hL, str_append_assoc]
  · refine ⟨(pyReplace (relatimeStamp r.relativeCreated ++
        (caller_location_string cfg last.filename last.lineno last.name ">>>>" ++ "\n")) "\n"
          ("\n" ++ replicateStr (relatimeStamp r.relativeCreated).length ' ') ++
        pyReplace T "\n" ("\n" ++ replicateStr (relatimeStamp r.relativeCreated).length ' ')) ++
      pyReplace (ei.evalueStr ++ " " ++ ei.etypeRepr ++ "\n") "\n"
        ("\n" ++ replicateStr (relatimeStamp r.relativeCreated).length ' '),
      "", ?_⟩
    rw [hred]
    refine congrArg some ?_
    simp only [pyReplace_nl_append, str_append_assoc, str_append_empty]
  · intro pn ln fn
    simp [formatRecord, hcol, hlvl, hexc, hlast, hmsg, hctx, hhead, htitle, htab, hemph,
      headingNotFalse, headingTruthy]

/-- C7 witness: the concrete critical record `critRecX7` (raise site `X`
line 7, call site `call.py` line 99). -/
theorem C7_critical_exception_location_witness :
    cfgPlain.color = false ∧
    critRecX7.levelno = 50 ∧
    critRecX7.exc_info = some excInfoX7 ∧
    excInfoX7.tb.getLast? = some frameX7 ∧
    critRecX7.msg = some "boom happened" ∧
    critRecX7.contextArg = none ∧
    critRecX7.argsHeading = .bool false ∧
    critRecX7.titleArg = none ∧
    critRecX7.table = false ∧
    critRecX7.emphasis = false ∧
    '\n' ∉ (caller_location_string cfgPlain frameX7.filename frameX7.lineno
      frameX7.name ">>>>").data ∧
    ((∃ a b, formatRecord cfgPlain critRecX7 =
      some (a ++ caller_location_string cfgPlain frameX7.filename frameX7.lineno
        frameX7.name ">>>>" ++ b)) ∧
     (∃ a2 b2, formatRecord cfgPlain critRecX7 =
      some (a2 ++
        pyReplace (pyRstrip (formatStackStr cfgPlain excInfoX7.tb) "\n") "\n"
          ("\n" ++ replicateStr (relatimeStamp critRecX7.relativeCreated).length ' ') ++ b2)) ∧
     (∀ pn ln fn, formatRecord cfgPlain
        { critRecX7 with pathname := pn, lineno := ln, funcName := fn } =
        formatRecord cfgPlain critRecX7)) :=
  ⟨rfl, rfl, rfl, rfl, rfl, rfl, rfl, rfl, rfl, rfl, by decide,
    C7_critical_exception_location cfgPlain critRecX7 excInfoX7 frameX7 "boom happened"
      rfl rfl rfl rfl rfl rfl rfl rfl rfl rfl (by decide)⟩

/-! ### C10 -/

/-- C10: on a single thread, at the moment any log call returns the global
context status is `NOCONTEXT` or `CURRENT` — never `OPENING` and never
`CLOSING` — and the pending slot has been fully consumed: the pipeline
always processes a `CLOSING` status down to `NOCONTEXT` and always
completes a pending promotion to `CURRENT` within the same log call. -/
theorem C10_status_after_log (l0 : Int) (evs : List LogEvent) (lv : Int)
    (p : String) (t : Option String) :
    ((runOps (initState l0) (evs ++ [.log lv p t])).1.status = .NOCONTEXT ∨
     (runOps (initState l0) (evs ++ [.log lv p t])).1.status = .CURRENT) ∧
    (runOps (initState l0) (evs ++ [.log lv p t])).1.context_pending = none := by
  have hne : (runOps (initState l0) evs).1.status ≠ .OPENING :=
    runOps_status_ne_opening evs (initState l0) (by simp [initState])
  rw [runOps_append_fst]
  have hdef : (runOps (runOps (initState l0) evs).1 [.log lv p t]).1 =
      (logOp lv p t (runOps (initState l0) evs).1).1 := rfl
  rw [hdef]
  exact logOp_post lv p t _ hne

end ErLog
